import Mathlib

/-!
Verification of the Vulpes-Porto image bot core (src/main.rs, src/api.rs,
src/structures.rs) against its natural-language specification.

The shallow embedding below translates the pool state machine (`ImageDB`),
the selection / commit / eviction logic of `post_image`, the catalog
reconciliation part of `load_images`, the fetch classification of
`get_image`, the status-text construction, and the scheduler
`get_next_time` into executable Lean definitions.  External effects
(filesystem, network, random number generator, clock) are passed in as
explicit oracle values, so every function is a pure, total function of its
inputs.
-/

namespace VulpesPorto

/-- `Image` from src/structures.rs / src/main.rs: descriptor of one catalog
entry.  `location` is the link (either `file:`-prefixed local path or URL). -/
structure Image where
  msg : Option String
  alt : Option String
  content_warning : Option String
  location : String
  deriving DecidableEq

/-- `ImageDB` from src/main.rs: the persisted pool of image keys (md5 hashes
of locations, modelled as opaque strings). -/
structure ImageDB where
  used : List String
  unused : List String
  random_deck : List String
  deriving DecidableEq

/-- `ImageDB::contains` (src/main.rs lines 158-161): key is in `used` or
`unused`. -/
def ImageDB.contains (db : ImageDB) (hash : String) : Bool :=
  db.used.contains hash || db.unused.contains hash

/-- Pool update of `load_images` (src/main.rs lines 264-271): every catalog
key not yet tracked by the pool is appended to `unused`, in catalog-iteration
order. -/
def addNewImages (db : ImageDB) (catalogKeys : List String) : ImageDB :=
  catalogKeys.foldl
    (fun d h => if d.contains h then d else { d with unused := d.unused ++ [h] }) db

/-- Pool update of `load_images` (src/main.rs lines 264-318): add the new
catalog keys to `unused`, then retain in `unused`, `used` and `random_deck`
only keys still present in the catalog.  `catalogKeys` are the md5 keys of
the freshly loaded catalog (distinct, being keys of a `HashMap`). -/
def reconcile (db : ImageDB) (catalogKeys : List String) : ImageDB :=
  let db := addNewImages db catalogKeys
  { db with
    unused := db.unused.filter (fun h => catalogKeys.contains h),
    used := db.used.filter (fun h => catalogKeys.contains h),
    random_deck := db.random_deck.filter (fun h => catalogKeys.contains h) }

/-- Selection step of `post_image` (src/main.rs lines 521-533).  `r` models
the value drawn from the thread rng; `gen_range(0..len)` constrains it to
`[0, len)`, which the model mirrors by reducing `r` modulo the length.
Returns the (possibly refilled) pool and the selected key; `none` models the
panic of `gen_range` on the empty range `0..0`, which happens exactly when
the deck is still empty after the refill. -/
def selectImage (db : ImageDB) (r : Nat) : ImageDB × Option String :=
  if db.unused.isEmpty then
    let db := if db.random_deck.isEmpty then
        { db with random_deck := db.random_deck ++ db.used } else db
    (db, db.random_deck.get? (r % db.random_deck.length))
  else
    (db, db.unused.get? (r % db.unused.length))

/-- The pool mutation shared by the critical-eviction block (src/main.rs
lines 560-571) and the commit block (lines 709-720), which are textually
identical in the source: if `unused` is non-empty, remove the key's first
occurrence from `unused` and append it to `used`; otherwise remove its first
occurrence from `random_deck`.  `none` models the panic of
`position(..).unwrap()` when the key is absent from the relevant list. -/
def consumeSelected (db : ImageDB) (key : String) : Option ImageDB :=
  if db.unused.isEmpty then
    if key ∈ db.random_deck then
      some { db with random_deck := db.random_deck.erase key }
    else none
  else
    if key ∈ db.unused then
      some { db with unused := db.unused.erase key, used := db.used ++ [key] }
    else none

/-- The pool invariant of the spec's data model: the three sequences are
duplicate-free ("sets of keys"), `unused` and `used` are disjoint, and
`random_deck` is contained in `used`. -/
def Inv (db : ImageDB) : Prop :=
  db.unused.Nodup ∧ db.used.Nodup ∧ db.random_deck.Nodup ∧
  (∀ k ∈ db.unused, k ∉ db.used) ∧
  (∀ k ∈ db.random_deck, k ∈ db.used)

instance (db : ImageDB) : Decidable (Inv db) := by
  unfold Inv; infer_instance

/-- `GetImageErrorLevel` from src/main.rs lines 27-30 (the `anyhow` message
payloads are log text only and are dropped). -/
inductive GetImageErrorLevel where
  | normal
  | critical
  deriving DecidableEq

/-- The external effects consulted by `get_image` and by the two API calls of
`post_image`, as oracle values.  Filesystem and network behaviour is a pure
function of the queried path / URL; each `Option` models a fallible call
(`none` = the call returned an error). -/
structure Env where
  /-- `Path::exists` on the joined local path. -/
  pathExists : String → Bool
  /-- `Path::canonicalize`; `none` models an I/O error. -/
  canonicalize : String → Option String
  /-- `File::open` succeeds on the canonical path. -/
  openOk : String → Bool
  /-- `read_to_end` succeeds on the canonical path. -/
  readOk : String → Bool
  /-- bytes produced by a successful local read. -/
  fileBytes : String → List Nat
  /-- `Client::builder().build()` for the remote-image fetch succeeds. -/
  fetchClientOk : Bool
  /-- remote GET of the image URL: `none` = transport error, `some st` = a
  response with HTTP status `st`. -/
  send : String → Option Nat
  /-- `response.bytes()` on the remote image response; `none` = error. -/
  body : String → Option (List Nat)
  /-- `Client::builder().build()` for the two API posts succeeds. -/
  postClientOk : Bool
  /-- POST to `/api/v2/media`: `none` = transport error, else HTTP status. -/
  mediaSend : Option Nat
  /-- `response.text()` on the media response succeeds (it is `unwrap`ped in
  the source, so a failure is a panic). -/
  mediaTextOk : Bool
  /-- `serde_json::from_str` on the media response body succeeds. -/
  mediaParseOk : Bool
  /-- `media_json["id"].as_str()`: the media id field, if present. -/
  mediaId : Option String
  /-- POST to `/api/v1/statuses`: `none` = transport error, else status. -/
  statusSend : Option Nat

/-- `reqwest::StatusCode::is_success`: 2xx. -/
def isSuccess (st : Nat) : Bool := 200 ≤ st && st < 300

/-- `get_image` from src/main.rs lines 421-517.  A `file:`-prefixed location
is resolved against the configured local root (`Path::join` is modelled as
string concatenation with a separator; the oracles treat paths as opaque
strings, and `Path::starts_with` of the canonical paths is modelled as a
string-prefix test).  A remote location is fetched with a dedicated client.
Returns the bytes or the error classification of the failure. -/
def getImage (env : Env) (local_path : Option String) (image_path : String) :
    Except GetImageErrorLevel (List Nat) :=
  -- strip_prefix("file:") succeeds iff the first five characters are "file:"
  if image_path.take 5 = "file:" then
    let rest := image_path.drop 5
    match local_path with
    | none => .error .critical
    | some lp =>
      let path := lp ++ "/" ++ rest
      if !env.pathExists path then .error .critical
      else
        match env.canonicalize path with
        | none => .error .critical
        | some canon =>
          match env.canonicalize lp with
          | none => .error .critical
          | some lpCanon =>
            -- Path::starts_with of the canonical paths, as a prefix test
            if !(canon.take lpCanon.length = lpCanon) then .error .critical
            else if !env.openOk canon then .error .critical
            else if !env.readOk canon then .error .normal
            else .ok (env.fileBytes canon)
  else
    if !env.fetchClientOk then .error .normal
    else
      match env.send image_path with
      | none => .error .normal
      | some st =>
        if st = 401 || st = 403 || st = 404 then .error .critical
        else
          match env.body image_path with
          | none => .error .normal
          | some bs => .ok bs

/-- Outcome of the media-upload and status-creation part of `post_image`
(src/main.rs lines 578-707): `ok` = both API calls succeeded, `fail` = an
early `return Err(())`, `panic` = an `unwrap()` of `response.text()`
failed. -/
inductive ApiResult where
  | ok
  | fail
  | panic
  deriving DecidableEq

/-- The media-upload (steps at src/main.rs lines 580-654) followed by the
status-creation call (lines 682-707).  The request bodies (alt text, status
text, spoiler, media id) do not influence control flow, which depends only
on the oracle outcomes. -/
def mediaAndStatus (env : Env) : ApiResult :=
  if !env.postClientOk then .fail
  else
    match env.mediaSend with
    | none => .fail
    | some st =>
      if !isSuccess st then (if env.mediaTextOk then .fail else .panic)
      else if !env.mediaTextOk then .panic
      else if !env.mediaParseOk then .fail
      else
        match env.mediaId with
        | none => .fail
        | some _ =>
          match env.statusSend with
          | none => .fail
          | some st2 => if !isSuccess st2 then .fail else .ok

/-- Result of one `post_image` call.  The source returns `Err(())` for both
failure classes; the model additionally records which class was taken
(`failedCritical key` = the critical-fetch path that evicted `key`,
`failedNormal` = every other `Err(())` path) and records panics
(`gen_range` over an empty range, `position().unwrap()` misses, and
`response.text().unwrap()` failures). -/
inductive PostOutcome where
  | posted (key : String)
  | failedNormal
  | failedCritical (key : String)
  | panicked
  deriving DecidableEq

/-- Association-list lookup modelling `HashMap::get` on the catalog. -/
def lookupImage (images : List (String × Image)) (key : String) : Option Image :=
  (images.find? (fun p => p.1 = key)).map (·.2)

/-- `post_image` from src/main.rs lines 520-723: select a key, look it up in
the catalog, fetch its bytes, upload them to the media API, create the
status, and only then move the key between the pool sequences.  A critical
fetch failure runs the eviction block instead.  `r` models the rng draw. -/
def postImage (local_path : Option String) (images : List (String × Image))
    (env : Env) (db : ImageDB) (r : Nat) : PostOutcome × ImageDB :=
  match selectImage db r with
  | (db1, none) => (.panicked, db1)
  | (db1, some key) =>
    match lookupImage images key with
    | none => (.failedNormal, db1)
    | some img =>
      match getImage env local_path img.location with
      | .error .critical =>
        match consumeSelected db1 key with
        | some db2 => (.failedCritical key, db2)
        | none => (.panicked, db1)
      | .error .normal => (.failedNormal, db1)
      | .ok _ =>
        match mediaAndStatus env with
        | .fail => (.failedNormal, db1)
        | .panic => (.panicked, db1)
        | .ok =>
          match consumeSelected db1 key with
          | some db2 => (.posted key, db2)
          | none => (.panicked, db1)

/-- Status-text construction of `post_image` (src/main.rs lines 661-670):
the image message (or `""`), a newline appended only when both the message
and the configured tag text are non-empty, then the tags appended whenever
they are configured at all. -/
def statusMessage (tags : Option String) (img : Image) : String :=
  let message := img.msg.getD ""
  match tags with
  | none => message
  | some ts => (if message ≠ "" ∧ ts ≠ "" then message ++ "\n" else message) ++ ts

/-- Status-text construction of `create_new_status_with_image`
(src/api.rs lines 180-189), where `tags` is a plain string defaulting to
`""`. -/
def statusMessageApi (tags : String) (img : Image) : String :=
  let message := img.msg.getD ""
  if tags ≠ "" then
    (if message ≠ "" then message ++ "\n" else message) ++ tags
  else message

/-- The optional `status` multipart field (src/main.rs lines 672-675): set
only when the built text is non-empty. -/
def statusField (tags : Option String) (img : Image) : Option String :=
  let m := statusMessage tags img
  if m = "" then none else some m

/-- `StatusVisibility` from src/structures.rs lines 31-39. -/
inductive StatusVisibility where
  | public
  | unlisted
  | priv
  | direct
  | default
  deriving DecidableEq

/-- The `Display` impl of `StatusVisibility` (src/structures.rs
lines 41-51). -/
def StatusVisibility.toText : StatusVisibility → String
  | .public => "public"
  | .unlisted => "unlisted"
  | .priv => "private"
  | .direct => "direct"
  | .default => ""

/-- The `visibility` multipart field of `create_new_status_with_image`
(src/api.rs lines 176-178): present only for a non-`Default` visibility. -/
def visibilityField (vis : StatusVisibility) : Option String :=
  if vis ≠ .default then some vis.toText else none

/-- Modelled from the spec: the code that selects the post visibility by
indexing the configured rotation (`Config.status_visibility_sequence`,
src/structures.rs lines 73-74) with the pool's cursor
(`ImageDB.visiblity_sequence`, src/structures.rs lines 231-232) and advances
the cursor on a committed publish is not under src/ — only the two fields
and the static-visibility path of src/api.rs lines 176-178 are.  Following
the spec: with a rotation configured, the visibility is the rotation entry
at the cursor and the cursor advances only when the publish commits; with no
rotation, the single static `status_visibility` is used and the cursor does
not move. -/
def publishVisibility (staticVis : StatusVisibility)
    (rotation : Option (List StatusVisibility)) (cursor : Nat)
    (committed : Bool) : Option String × Nat :=
  match rotation with
  | some seq =>
    (visibilityField (seq.getD (cursor % seq.length) .default),
     if committed then cursor + 1 else cursor)
  | none => (visibilityField staticVis, cursor)

/-- One successful publish cycle for the fairness property: the selection
step of `post_image` followed (after a fully successful pipeline) by its
commit block, iterated over a list of rng draws.  `none` models a panic in
either step. -/
def selectCommitRun (db : ImageDB) : List Nat → Option (List String × ImageDB)
  | [] => some ([], db)
  | r :: rs =>
    match selectImage db r with
    | (_, none) => none
    | (db1, some key) =>
      match consumeSelected db1 key with
      | none => none
      | some db2 =>
        match selectCommitRun db2 rs with
        | none => none
        | some (keys, dbf) => some (key :: keys, dbf)

/-- The clock / calendar oracles used by `get_next_time`: `mkLocal day h m`
models `Date::and_hms_opt` for the calendar day `day` counted from the
walk's start (`none` = the local time does not exist, e.g. inside a DST
gap), and `now` models `Utc::now()` converted to the same timezone.
Timestamps are integers in seconds. -/
structure TimeEnv where
  mkLocal : Nat → Nat → Nat → Option Int
  now : Int

/-- Result of the scheduler: the returned fire time, the
`panic_message` path for out-of-range hours/minutes, or exhaustion of the
day-walk fuel (the source loops without bound). -/
inductive NextTimeResult where
  | found (t : Int)
  | panicked
  | fuelOut
  deriving DecidableEq

/-- One day of the candidate walk (src/main.rs lines 379-413): try each
configured (hour, minute) in order; a constructible candidate strictly later
than `now` is returned, a non-constructible candidate with in-range fields
is skipped (the DST log messages do not affect the result), out-of-range
fields panic. -/
def tryDay (env : TimeEnv) (day : Nat) :
    List (Nat × Nat) → Option NextTimeResult
  | [] => none
  | (h, m) :: rest =>
    match env.mkLocal day h m with
    | some t => if env.now < t then some (.found t) else tryDay env day rest
    | none =>
      if h ≤ 23 ∧ m ≤ 59 then tryDay env day rest else some .panicked

/-- `Duration::days(1)` in seconds. -/
def oneDay : Int := 86400

/-- Day-by-day walk of `get_next_time` (src/main.rs lines 377-417), with
explicit fuel standing in for the unbounded `loop`. -/
def nextTimeLoop (env : TimeEnv) (times : List (Nat × Nat)) :
    Nat → Nat → NextTimeResult
  | _, 0 => .fuelOut
  | day, fuel + 1 =>
    match tryDay env day times with
    | some res => res
    | none => nextTimeLoop env times (day + 1) fuel

/-- `get_next_time` from src/main.rs lines 368-418: with no configured
times, return the reference timestamp plus one day; otherwise walk the
calendar days starting at the reference date for the first candidate
strictly later than `now`.  `afterTs` is the reference timestamp
(`date_time`), day `0` of `env.mkLocal` is its calendar date. -/
def getNextTime (env : TimeEnv) (times : List (Nat × Nat)) (afterTs : Int)
    (fuel : Nat) : NextTimeResult :=
  if times.isEmpty then .found (afterTs + oneDay)
  else nextTimeLoop env times 0 fuel

/-! ### Helper lemmas about selection, consumption and the pool invariant -/

theorem select_unused_ne (db : ImageDB) (r : Nat) (h : db.unused ≠ []) :
    selectImage db r =
      (db, some (db.unused.get ⟨r % db.unused.length, Nat.mod_lt r (List.length_pos.mpr h)⟩)) := by
  have hne : db.unused.isEmpty = false := by
    simp [List.isEmpty_iff, h]
  simp [selectImage, hne, List.get?_eq_get]

theorem select_fst_used (db : ImageDB) (r : Nat) :
    (selectImage db r).1.used = db.used := by
  unfold selectImage
  split <;> [skip; rfl]
  split <;> rfl

theorem select_fst_unused (db : ImageDB) (r : Nat) :
    (selectImage db r).1.unused = db.unused := by
  unfold selectImage
  split <;> [skip; rfl]
  split <;> rfl

theorem select_fst_deck (db : ImageDB) (r : Nat) :
    (selectImage db r).1.random_deck =
      if db.unused = [] ∧ db.random_deck = [] then db.used else db.random_deck := by
  unfold selectImage
  rcases hu : db.unused.isEmpty with _ | _
  · have : ¬ db.unused = [] := by simpa [List.isEmpty_iff] using hu
    simp [hu, this]
  · have hu' : db.unused = [] := by simpa [List.isEmpty_iff] using hu
    rcases hd : db.random_deck.isEmpty with _ | _
    · have : ¬ db.random_deck = [] := by simpa [List.isEmpty_iff] using hd
      simp [hu, hd, hu', this]
    · have hd' : db.random_deck = [] := by simpa [List.isEmpty_iff] using hd
      simp [hu, hd, hu', hd']

theorem select_some_mem (db : ImageDB) (r : Nat) (key : String)
    (h : (selectImage db r).2 = some key) :
    (db.unused ≠ [] → key ∈ db.unused) ∧
    (db.unused = [] → key ∈ (selectImage db r).1.random_deck) := by
  constructor
  · intro hne
    rw [select_unused_ne db r hne] at h
    simp only [Option.some_inj] at h
    exact h ▸ List.get_mem _ _ _
  · intro he
    have hu : db.unused.isEmpty = true := by simp [List.isEmpty_iff, he]
    unfold selectImage at h ⊢
    simp only [hu, if_pos rfl] at h ⊢
    exact List.get?_mem h

theorem consume_unused (db : ImageDB) (key : String) (hne : db.unused ≠ [])
    (hk : key ∈ db.unused) :
    consumeSelected db key =
      some { db with unused := db.unused.erase key, used := db.used ++ [key] } := by
  have hu : db.unused.isEmpty = false := by simp [List.isEmpty_iff, hne]
  simp [consumeSelected, hu, hk]

theorem consume_deck (db : ImageDB) (key : String) (he : db.unused = [])
    (hk : key ∈ db.random_deck) :
    consumeSelected db key =
      some { db with random_deck := db.random_deck.erase key } := by
  have hu : db.unused.isEmpty = true := by simp [List.isEmpty_iff, he]
  simp [consumeSelected, hu, hk]

theorem contains_eq_false (db : ImageDB) (h : String) :
    db.contains h = false ↔ h ∉ db.used ∧ h ∉ db.unused := by
  simp [ImageDB.contains]

theorem inv_addNewImages (ks : List String) (db : ImageDB) (hInv : Inv db) :
    Inv (addNewImages db ks) := by
  induction ks generalizing db with
  | nil => simpa [addNewImages] using hInv
  | cons k ks ih =>
    rw [addNewImages, List.foldl_cons]
    by_cases hc : db.contains k = true
    · simp only [hc, if_pos rfl]
      exact ih db hInv
    · have hkf : db.contains k = false := Bool.eq_false_iff.mpr hc
      have hk := (contains_eq_false db k).mp hkf
      rw [if_neg (by simp [hkf])]
      refine ih _ ?_
      obtain ⟨h1, h2, h3, h4, h5⟩ := hInv
      refine ⟨?_, h2, h3, ?_, h5⟩
      · simp only [List.nodup_append, List.nodup_cons, List.nodup_nil]
        exact ⟨h1, by simp, by simp [List.disjoint_singleton, hk.2]⟩
      · intro x hx
        rcases List.mem_append.mp hx with hx | hx
        · exact h4 x hx
        · simp only [List.mem_singleton] at hx
          exact hx ▸ hk.1

theorem inv_reconcile (ks : List String) (db : ImageDB) (hInv : Inv db) :
    Inv (reconcile db ks) := by
  have hAdd := inv_addNewImages ks db hInv
  obtain ⟨h1, h2, h3, h4, h5⟩ := hAdd
  refine ⟨h1.filter _, h2.filter _, h3.filter _, ?_, ?_⟩
  · intro x hx hx'
    have hx1 := (List.mem_filter.mp hx).1
    have hx2 := (List.mem_filter.mp hx').1
    exact h4 x hx1 hx2
  · intro x hx
    have hx1 := (List.mem_filter.mp hx).1
    have hx2 := (List.mem_filter.mp hx).2
    exact List.mem_filter.mpr ⟨h5 x hx1, hx2⟩

theorem inv_select (db : ImageDB) (r : Nat) (hInv : Inv db) :
    Inv (selectImage db r).1 := by
  obtain ⟨h1, h2, h3, h4, h5⟩ := hInv
  have hu := select_fst_used db r
  have hn := select_fst_unused db r
  have hd := select_fst_deck db r
  refine ⟨?_, ?_, ?_, ?_, ?_⟩
  · rw [hn]; exact h1
  · rw [hu]; exact h2
  · rw [hd]; split
    · exact h2
    · exact h3
  · rw [hn, hu]; exact h4
  · rw [hd, hu]; split
    · intro k hk; exact hk
    · exact h5

theorem inv_consume (db : ImageDB) (key : String) (db' : ImageDB)
    (hInv : Inv db) (hc : consumeSelected db key = some db') : Inv db' := by
  obtain ⟨h1, h2, h3, h4, h5⟩ := hInv
  unfold consumeSelected at hc
  split at hc
  · split at hc
    · obtain rfl := Option.some.inj hc
      exact ⟨h1, h2, h3.erase key, h4, fun x hx => h5 x (List.mem_of_mem_erase hx)⟩
    · exact absurd hc (by simp)
  · split at hc
    · rename_i hk
      obtain rfl := Option.some.inj hc
      have hkey_not_used : key ∉ db.used := h4 key hk
      refine ⟨h1.erase key, ?_, h3, ?_, ?_⟩
      · simp only [List.nodup_append, List.nodup_cons, List.nodup_nil]
        exact ⟨h2, by simp, by simp [List.disjoint_singleton, hkey_not_used]⟩
      · intro x hx
        have hx' := (h1.mem_erase_iff.mp hx)
        intro hmem
        rcases List.mem_append.mp hmem with hm | hm
        · exact h4 x hx'.2 hm
        · simp only [List.mem_singleton] at hm
          exact hx'.1 hm
      · intro x hx
        exact List.mem_append_left _ (h5 x hx)
    · exact absurd hc (by simp)

/-- Every run of `post_image` either leaves the pool exactly as the
selection step left it (all `Err(())` returns before the final block, and
the panic paths), or ends in the shared consume block applied to the
selected key (the eviction path and the commit path). -/
theorem postImage_cases (lp : Option String) (images : List (String × Image))
    (env : Env) (db : ImageDB) (r : Nat) :
    (((postImage lp images env db r).1 = .failedNormal ∨
      (postImage lp images env db r).1 = .panicked) ∧
      (postImage lp images env db r).2 = (selectImage db r).1) ∨
    (∃ key, ((postImage lp images env db r).1 = .failedCritical key ∨
             (postImage lp images env db r).1 = .posted key) ∧
      (selectImage db r).2 = some key ∧
      consumeSelected (selectImage db r).1 key =
        some (postImage lp images env db r).2) := by
  rcases hsel : selectImage db r with ⟨db1, k⟩
  cases k with
  | none => simp [postImage, hsel]
  | some key =>
    cases hli : lookupImage images key with
    | none => simp [postImage, hsel, hli]
    | some img =>
      cases hgi : getImage env lp img.location with
      | error e =>
        cases e with
        | normal => simp [postImage, hsel, hli, hgi]
        | critical =>
          cases hc : consumeSelected db1 key with
          | none => simp [postImage, hsel, hli, hgi, hc]
          | some db2 =>
            right
            exact ⟨key, by simp [postImage, hsel, hli, hgi, hc]⟩
      | ok bs =>
        cases har : mediaAndStatus env with
        | fail => simp [postImage, hsel, hli, hgi, har]
        | panic => simp [postImage, hsel, hli, hgi, har]
        | ok =>
          cases hc : consumeSelected db1 key with
          | none => simp [postImage, hsel, hli, hgi, har, hc]
          | some db2 =>
            right
            exact ⟨key, by simp [postImage, hsel, hli, hgi, har, hc]⟩

/-- The eviction path of `post_image`: a critical fetch classification sends
the run into the eviction block and surfaces the per-item failure. -/
theorem postImage_critical (lp : Option String) (images : List (String × Image))
    (env : Env) (db db1 db2 : ImageDB) (r : Nat) (key : String) (img : Image)
    (hsel : selectImage db r = (db1, some key))
    (hli : lookupImage images key = some img)
    (hgi : getImage env lp img.location = .error .critical)
    (hc : consumeSelected db1 key = some db2) :
    postImage lp images env db r = (.failedCritical key, db2) := by
  simp [postImage, hsel, hli, hgi, hc]

/-- Inversion of the shared consume block: if it produced a pool, the key
was present in the relevant sequence and the result is the corresponding
one-key removal. -/
theorem consume_some (db db' : ImageDB) (key : String)
    (h : consumeSelected db key = some db') :
    (db.unused = [] → key ∈ db.random_deck ∧
      db' = { db with random_deck := db.random_deck.erase key }) ∧
    (db.unused ≠ [] → key ∈ db.unused ∧
      db' = { db with unused := db.unused.erase key, used := db.used ++ [key] }) := by
  unfold consumeSelected at h
  split at h
  · rename_i hu
    have hu' : db.unused = [] := by simpa [List.isEmpty_iff] using hu
    split at h
    · rename_i hk
      obtain rfl := Option.some.inj h
      exact ⟨fun _ => ⟨hk, rfl⟩, fun hne => absurd hu' hne⟩
    · exact absurd h (by simp)
  · rename_i hu
    have hu' : db.unused ≠ [] := by simpa [List.isEmpty_iff] using hu
    split at h
    · rename_i hk
      obtain rfl := Option.some.inj h
      exact ⟨fun he => absurd he hu', fun _ => ⟨hk, rfl⟩⟩
    · exact absurd h (by simp)

/-! ### Claim theorems -/

/-- C1 (amended): a Normal-class failure at any step of `post_image` leaves
`used` and `unused` byte-for-byte identical to their pre-attempt state, and
leaves `random_deck` identical as well unless both `unused` and
`random_deck` were empty at selection time, in which case the deck refill
performed during selection persists and `random_deck` afterwards equals the
pre-attempt `used`; the move of the selected key between sequences happens
only when both the media-upload and status-creation steps succeed, and a
committed publish changes the pool exactly by that move. -/
theorem c1_normal_failure_pool_effect (lp : Option String)
    (images : List (String × Image)) (env : Env) (db : ImageDB) (r : Nat)
    (key : String) :
    ((postImage lp images env db r).1 = .failedNormal →
      (postImage lp images env db r).2.used = db.used ∧
      (postImage lp images env db r).2.unused = db.unused ∧
      (postImage lp images env db r).2.random_deck =
        (if db.unused = [] ∧ db.random_deck = [] then db.used
         else db.random_deck)) ∧
    ((postImage lp images env db r).1 = .posted key →
      (db.unused ≠ [] →
        (postImage lp images env db r).2.used = db.used ++ [key] ∧
        (postImage lp images env db r).2.unused = db.unused.erase key ∧
        (postImage lp images env db r).2.random_deck = db.random_deck) ∧
      (db.unused = [] →
        (postImage lp images env db r).2.used = db.used ∧
        (postImage lp images env db r).2.unused = db.unused ∧
        (postImage lp images env db r).2.random_deck =
          (if db.random_deck = [] then db.used
           else db.random_deck).erase key)) := by
  constructor
  · intro h
    rcases postImage_cases lp images env db r with ⟨_, hdb⟩ | ⟨key', hk, _, _⟩
    · rw [hdb, select_fst_used, select_fst_unused, select_fst_deck]
      exact ⟨rfl, rfl, rfl⟩
    · rcases hk with hk | hk <;> rw [h] at hk <;> exact absurd hk (by simp)
  · intro h
    rcases postImage_cases lp images env db r with ⟨hk, _⟩ | ⟨key', hk, hsel, hcons⟩
    · rcases hk with hk | hk <;> rw [h] at hk <;> exact absurd hk (by simp)
    · have hkey : key' = key := by
        rcases hk with hk | hk
        · rw [h] at hk; exact absurd hk (by simp)
        · rw [h] at hk; exact (PostOutcome.posted.inj hk).symm
      subst hkey
      have hinv := consume_some _ _ _ hcons
      constructor
      · intro hne
        have hne' : (selectImage db r).1.unused ≠ [] := by
          rw [select_fst_unused]; exact hne
        obtain ⟨_, hdb⟩ := hinv.2 hne'
        have := congrArg ImageDB.used hdb
        have h2 := congrArg ImageDB.unused hdb
        have h3 := congrArg ImageDB.random_deck hdb
        simp only at this h2 h3
        rw [this, h2, h3, select_fst_used, select_fst_unused, select_fst_deck]
        simp [hne]
      · intro he
        have he' : (selectImage db r).1.unused = [] := by
          rw [select_fst_unused]; exact he
        obtain ⟨_, hdb⟩ := hinv.1 he'
        have h1 := congrArg ImageDB.used hdb
        have h2 := congrArg ImageDB.unused hdb
        have h3 := congrArg ImageDB.random_deck hdb
        simp only at h1 h2 h3
        rw [h1, h2, h3, select_fst_used, select_fst_unused, select_fst_deck]
        simp [he]

/-- Oracle values for a fully successful publish attempt. -/
def envOkAll : Env where
  pathExists := fun _ => true
  canonicalize := fun p => some p
  openOk := fun _ => true
  readOk := fun _ => true
  fileBytes := fun _ => [1]
  fetchClientOk := true
  send := fun _ => some 200
  body := fun _ => some [1]
  postClientOk := true
  mediaSend := some 200
  mediaTextOk := true
  mediaParseOk := true
  mediaId := some "1"
  statusSend := some 200

/-- Oracle values where the media upload succeeds but the status-creation
POST comes back with HTTP 500 — a Normal failure at the last step. -/
def envStatusFail : Env := { envOkAll with statusSend := some 500 }

/-- A remote catalog image keyed `"a"`. -/
def imgRemoteA : Image := ⟨none, none, none, "http://host/a"⟩

/-- A pool in which every image has been used and the deck is exhausted, so
the next selection refills the deck. -/
def dbRefillOnly : ImageDB := ⟨["a"], [], []⟩

/-- C1 counterexample: with pool `used = ["a"]`, `unused = []`,
`random_deck = []`, a publish attempt whose media upload succeeds and whose
status creation fails with a Normal-class HTTP 500 leaves
`random_deck = ["a"]`, not its pre-attempt value `[]` — the deck refill done
during selection survives the failed attempt, so the pool is not
byte-for-byte identical to its pre-attempt state. -/
theorem c1_counterexample :
    (postImage none [("a", imgRemoteA)] envStatusFail dbRefillOnly 0).1 =
      .failedNormal ∧
    dbRefillOnly.random_deck = [] ∧
    (postImage none [("a", imgRemoteA)] envStatusFail dbRefillOnly 0).2.random_deck
      = ["a"] := by
  refine ⟨by decide, rfl, by decide⟩

/-- Witness for the amended C1 at a concrete pool with a non-empty `unused`:
the same status-creation failure leaves all three sequences unchanged. -/
theorem c1_witness :
    (postImage none [("a", imgRemoteA)] envStatusFail ⟨[], ["a"], []⟩ 0).1 =
      .failedNormal ∧
    (postImage none [("a", imgRemoteA)] envStatusFail ⟨[], ["a"], []⟩ 0).2.used
      = [] ∧
    (postImage none [("a", imgRemoteA)] envStatusFail ⟨[], ["a"], []⟩ 0).2.unused
      = ["a"] ∧
    (postImage none [("a", imgRemoteA)] envStatusFail ⟨[], ["a"], []⟩ 0).2.random_deck
      = [] := by
  have h := (c1_normal_failure_pool_effect none [("a", imgRemoteA)] envStatusFail
    ⟨[], ["a"], []⟩ 0 "a").1 (by decide)
  exact ⟨by decide, h.1, h.2.1, by simpa using h.2.2⟩

/-- C2: for a pool whose `unused` list is duplicate-free, a run of
selections each followed by the commit of the selected key never repeats a
key while `unused` is being drained: after exactly `|unused|` cycles the
selected keys are a permutation of the initial `unused` (each image selected
exactly once, no repeats) and `unused` has been fully emptied. -/
theorem c2_select_commit_fairness (db : ImageDB) (rs : List Nat)
    (h1 : db.unused.Nodup) (h2 : rs.length = db.unused.length) :
    (selectCommitRun db rs).isSome = true ∧
    ∀ keys dbf, selectCommitRun db rs = some (keys, dbf) →
      keys.Perm db.unused ∧ dbf.unused = [] := by
  induction rs generalizing db with
  | nil =>
    have hu : db.unused = [] := List.length_eq_zero.mp h2.symm
    refine ⟨by simp [selectCommitRun], ?_⟩
    intro keys dbf h
    simp only [selectCommitRun, Option.some_inj, Prod.mk.injEq] at h
    obtain ⟨rfl, rfl⟩ := h
    exact ⟨by rw [hu], hu⟩
  | cons r rs ih =>
    have hne : db.unused ≠ [] := by
      intro he
      rw [he] at h2
      simp at h2
    have hlt : r % db.unused.length < db.unused.length :=
      Nat.mod_lt r (List.length_pos.mpr hne)
    have hsel := select_unused_ne db r hne
    set key := db.unused.get ⟨r % db.unused.length, hlt⟩ with hkey
    have hk : key ∈ db.unused := List.get_mem _ _ _
    have hcons := consume_unused db key hne hk
    set db2 : ImageDB :=
      { db with unused := db.unused.erase key, used := db.used ++ [key] } with hdb2
    have h1' : db2.unused.Nodup := h1.erase key
    have h2' : rs.length = db2.unused.length := by
      show rs.length = (db.unused.erase key).length
      rw [List.length_erase_of_mem hk]
      simp only [List.length_cons] at h2
      omega
    obtain ⟨hsome, hall⟩ := ih db2 h1' h2'
    obtain ⟨⟨keys, dbf⟩, hrun⟩ := Option.isSome_iff_exists.mp hsome
    have hres : selectCommitRun db (r :: rs) = some (key :: keys, dbf) := by
      simp only [selectCommitRun]
      rw [hsel]
      simp only [hcons, hrun]
    refine ⟨by simp [hres], ?_⟩
    intro keys' dbf' h
    rw [hres] at h
    simp only [Option.some_inj, Prod.mk.injEq] at h
    obtain ⟨rfl, rfl⟩ := h
    obtain ⟨hperm, hempty⟩ := hall keys dbf hrun
    have hperm2 : (key :: keys).Perm (key :: db.unused.erase key) := hperm.cons key
    exact ⟨hperm2.trans (List.perm_cons_erase hk).symm, hempty⟩

/-- Witness for C2 at a concrete two-image pool. -/
theorem c2_witness :
    (["a", "b"] : List String).Nodup ∧
    (selectCommitRun ⟨[], ["a", "b"], []⟩ [0, 0]).isSome = true :=
  ⟨by decide,
   (c2_select_commit_fairness ⟨[], ["a", "b"], []⟩ [0, 0] (by decide) (by decide)).1⟩

/-- C3: the data-model invariant — `unused` and `used` are duplicate-free
and disjoint, `random_deck` is duplicate-free and contained in `used` — is
preserved by catalog reconciliation (for any catalog key list), by selection
including the deck refill, and by the shared consume block that implements
both the commit of a successful publish and the eviction on a critical
fetch failure. -/
theorem c3_invariant_preservation (db : ImageDB) (ks : List String) (r : Nat)
    (key : String) (hInv : Inv db) :
    Inv (reconcile db ks) ∧ Inv (selectImage db r).1 ∧
    (∀ db', consumeSelected db key = some db' → Inv db') :=
  ⟨inv_reconcile ks db hInv, inv_select db r hInv,
   fun db' hc => inv_consume db key db' hInv hc⟩

/-- Witness for C3 at a concrete invariant-satisfying pool. -/
theorem c3_witness :
    Inv (⟨["a"], ["b"], ["a"]⟩ : ImageDB) ∧
    Inv (reconcile ⟨["a"], ["b"], ["a"]⟩ ["a", "c"]) ∧
    Inv (selectImage ⟨["a"], ["b"], ["a"]⟩ 0).1 :=
  ⟨by decide,
   (c3_invariant_preservation ⟨["a"], ["b"], ["a"]⟩ ["a", "c"] 0 "b" (by decide)).1,
   (c3_invariant_preservation ⟨["a"], ["b"], ["a"]⟩ ["a", "c"] 0 "b" (by decide)).2.1⟩

/-- Oracle values where the remote image GET answers with HTTP 500 and a
readable body. -/
def envRemote500 : Env := { envOkAll with send := fun _ => some 500 }

/-- C4 counterexample: the claim classifies every non-client-error bad
status as a Normal failure, but `get_image` only checks for 401/403/404 —
a remote fetch answered with HTTP 500 and a readable body is returned as a
successful fetch of the (error-page) bytes, classified neither Normal nor
Critical. -/
theorem c4_counterexample :
    envRemote500.send "http://host/a" = some 500 ∧
    getImage envRemote500 none "http://host/a" = .ok [1] :=
  ⟨rfl, rfl⟩

/-- C4 (amended): the fetch classification of `get_image` is: for a
`file:`-prefixed location — missing configured root, non-existing joined
path, canonicalization failure of either path, a canonical path escaping
the root, and a failing `File::open` are all Critical, while a failing
read after a successful open is Normal; for a remote location — failure to
build the client, a transport error, and an unreadable body are Normal,
HTTP 401/403/404 are Critical, and any other status (success or not) with
a readable body is treated as a successful fetch of the body bytes. -/
theorem c4_fetch_classification (env : Env) (ip lproot canonJ canonRoot : String) :
    (ip.take 5 = "file:" → getImage env none ip = .error .critical) ∧
    (ip.take 5 = "file:" →
      env.pathExists (lproot ++ "/" ++ ip.drop 5) = false →
      getImage env (some lproot) ip = .error .critical) ∧
    (ip.take 5 = "file:" →
      env.pathExists (lproot ++ "/" ++ ip.drop 5) = true →
      env.canonicalize (lproot ++ "/" ++ ip.drop 5) = none →
      getImage env (some lproot) ip = .error .critical) ∧
    (ip.take 5 = "file:" →
      env.pathExists (lproot ++ "/" ++ ip.drop 5) = true →
      env.canonicalize (lproot ++ "/" ++ ip.drop 5) = some canonJ →
      env.canonicalize lproot = none →
      getImage env (some lproot) ip = .error .critical) ∧
    (ip.take 5 = "file:" →
      env.pathExists (lproot ++ "/" ++ ip.drop 5) = true →
      env.canonicalize (lproot ++ "/" ++ ip.drop 5) = some canonJ →
      env.canonicalize lproot = some canonRoot →
      canonJ.take canonRoot.length ≠ canonRoot →
      getImage env (some lproot) ip = .error .critical) ∧
    (ip.take 5 = "file:" →
      env.pathExists (lproot ++ "/" ++ ip.drop 5) = true →
      env.canonicalize (lproot ++ "/" ++ ip.drop 5) = some canonJ →
      env.canonicalize lproot = some canonRoot →
      canonJ.take canonRoot.length = canonRoot →
      env.openOk canonJ = false →
      getImage env (some lproot) ip = .error .critical) ∧
    (ip.take 5 = "file:" →
      env.pathExists (lproot ++ "/" ++ ip.drop 5) = true →
      env.canonicalize (lproot ++ "/" ++ ip.drop 5) = some canonJ →
      env.canonicalize lproot = some canonRoot →
      canonJ.take canonRoot.length = canonRoot →
      env.openOk canonJ = true →
      env.readOk canonJ = false →
      getImage env (some lproot) ip = .error .normal) ∧
    (¬ ip.take 5 = "file:" → env.fetchClientOk = false →
      getImage env none ip = .error .normal) ∧
    (¬ ip.take 5 = "file:" → env.fetchClientOk = true →
      env.send ip = none →
      getImage env none ip = .error .normal) ∧
    (∀ st, ¬ ip.take 5 = "file:" → env.fetchClientOk = true →
      env.send ip = some st → (st = 401 ∨ st = 403 ∨ st = 404) →
      getImage env none ip = .error .critical) ∧
    (∀ st, ¬ ip.take 5 = "file:" → env.fetchClientOk = true →
      env.send ip = some st → ¬ (st = 401 ∨ st = 403 ∨ st = 404) →
      env.body ip = none →
      getImage env none ip = .error .normal) ∧
    (∀ st bs, ¬ ip.take 5 = "file:" → env.fetchClientOk = true →
      env.send ip = some st → ¬ (st = 401 ∨ st = 403 ∨ st = 404) →
      env.body ip = some bs →
      getImage env none ip = .ok bs) := by
  refine ⟨?_, ?_, ?_, ?_, ?_, ?_, ?_, ?_, ?_, ?_, ?_, ?_⟩
  · intro h1
    simp [getImage, h1]
  · intro h1 h2
    simp [getImage, h1, h2]
  · intro h1 h2 h3
    simp [getImage, h1, h2, h3]
  · intro h1 h2 h3 h4
    simp [getImage, h1, h2, h3, h4]
  · intro h1 h2 h3 h4 h5
    simp [getImage, h1, h2, h3, h4, h5]
  · intro h1 h2 h3 h4 h5 h6
    simp [getImage, h1, h2, h3, h4, h5, h6]
  · intro h1 h2 h3 h4 h5 h6 h7
    simp [getImage, h1, h2, h3, h4, h5, h6, h7]
  · intro h1 h2
    simp [getImage, h1, h2]
  · intro h1 h2 h3
    simp [getImage, h1, h2, h3]
  · intro st h1 h2 h3 h4
    simp only [getImage, h1, h2, h3, if_neg h1]
    rcases h4 with h4 | h4 | h4 <;> simp [h4]
  · intro st h1 h2 h3 h4 h5
    push_neg at h4
    simp [getImage, h1, h2, h3, h4.1, h4.2.1, h4.2.2, h5]
  · intro st bs h1 h2 h3 h4 h5
    push_neg at h4
    simp [getImage, h1, h2, h3, h4.1, h4.2.1, h4.2.2, h5]

/-- Witness for C4: concrete instances of the missing-root, read-failure
and non-client-error-status cases. -/
theorem c4_witness :
    getImage envOkAll none "file:a.png" = .error .critical ∧
    getImage { envOkAll with readOk := fun _ => false } (some "/root")
      "file:a.png" = .error .normal ∧
    getImage envRemote500 none "http://host/a" = .ok [1] := by
  refine ⟨?_, ?_, ?_⟩
  · exact (c4_fetch_classification envOkAll "file:a.png" "" "" "").1 rfl
  · exact (c4_fetch_classification { envOkAll with readOk := fun _ => false }
      "file:a.png" "/root" "/root/a.png" "/root").2.2.2.2.2.2.1
      rfl rfl rfl rfl (by decide) rfl rfl
  · exact (c4_fetch_classification envRemote500 "http://host/a" "" "" "").2.2.2.2.2.2.2.2.2.2.2
      500 [1] (by decide) rfl rfl (by decide) rfl

/-- Effect of the eviction block on an invariant-satisfying pool when the
selected key's fetch is classified Critical (shared helper for the
eviction-behaviour results). -/
theorem critical_eviction_spec (lp : Option String)
    (images : List (String × Image)) (env : Env) (db db1 : ImageDB)
    (r : Nat) (key : String) (img : Image) (hInv : Inv db)
    (hsel : selectImage db r = (db1, some key))
    (hli : lookupImage images key = some img)
    (hgi : getImage env lp img.location = .error .critical) :
    (postImage lp images env db r).1 = .failedCritical key ∧
    key ∈ (postImage lp images env db r).2.used ∧
    key ∉ (postImage lp images env db r).2.unused ∧
    key ∉ (postImage lp images env db r).2.random_deck ∧
    (db.unused ≠ [] →
      (postImage lp images env db r).2.unused = db.unused.erase key ∧
      (postImage lp images env db r).2.used = db.used ++ [key] ∧
      (postImage lp images env db r).2.random_deck = db.random_deck) ∧
    (db.unused = [] →
      (postImage lp images env db r).2.random_deck = db1.random_deck.erase key ∧
      (postImage lp images env db r).2.used = db.used ∧
      (postImage lp images env db r).2.unused = [] ∧
      key ∈ db.used) := by
  obtain ⟨hN1, hN2, hN3, hDisj, hSub⟩ := hInv
  have hdb1 : (selectImage db r).1 = db1 := by rw [hsel]
  have hs2 : (selectImage db r).2 = some key := by rw [hsel]
  have hu1 : db1.used = db.used := by rw [← hdb1, select_fst_used]
  have hn1 : db1.unused = db.unused := by rw [← hdb1, select_fst_unused]
  have hd1 : db1.random_deck =
      (if db.unused = [] ∧ db.random_deck = [] then db.used
       else db.random_deck) := by
    rw [← hdb1, select_fst_deck]
  have hmem := select_some_mem db r key hs2
  by_cases he : db.unused = []
  · -- drawn from the random deck
    have hkd : key ∈ db1.random_deck := by
      rw [← hdb1]
      exact hmem.2 he
    have hdN : db1.random_deck.Nodup := by
      rw [hd1]
      split
      · exact hN2
      · exact hN3
    have hkd_used : key ∈ db.used := by
      rw [hd1] at hkd
      split at hkd
      · exact hkd
      · exact hSub key hkd
    have hcons := consume_deck db1 key (hn1.trans he) hkd
    have hpost := postImage_critical lp images env db db1 _ r key img hsel hli hgi hcons
    rw [hpost]
    refine ⟨rfl, ?_, ?_, ?_, fun hne => absurd he hne, fun _ => ⟨rfl, hu1, hn1.trans he, hkd_used⟩⟩
    · exact hu1 ▸ hkd_used
    · rw [hn1, he]
      exact List.not_mem_nil key
    · exact fun hmem' => (hdN.mem_erase_iff.mp hmem').1 rfl
  · -- drawn from unused
    have hku : key ∈ db.unused := hmem.1 he
    have hcons := consume_unused db1 key (by rw [hn1]; exact he) (hn1 ▸ hku)
    have hpost := postImage_critical lp images env db db1 _ r key img hsel hli hgi hcons
    have hdeck1 : db1.random_deck = db.random_deck := by
      rw [hd1, if_neg (by simp [he])]
    rw [hpost]
    refine ⟨rfl, ?_, ?_, ?_, fun _ => ⟨by rw [hn1], by rw [hu1], hdeck1⟩,
      fun he' => absurd he' he⟩
    · simp
    · rw [hn1]
      exact fun hmem' => (hN1.mem_erase_iff.mp hmem').1 rfl
    · rw [hdeck1]
      exact fun hmem' => hDisj key hku (hSub key hmem')

/-- C5: for an invariant-satisfying pool, when the selected key's fetch is
classified Critical, the eviction leaves the key in `used` and absent from
`unused` and `random_deck`; if it was drawn from `unused` it is removed
from `unused` and appended to `used`, and if it was drawn from
`random_deck` it is removed from `random_deck` only and remains in
`used`. -/
theorem c5_critical_eviction (lp : Option String)
    (images : List (String × Image)) (env : Env) (db db1 : ImageDB)
    (r : Nat) (key : String) (img : Image) (hInv : Inv db)
    (hsel : selectImage db r = (db1, some key))
    (hli : lookupImage images key = some img)
    (hgi : getImage env lp img.location = .error .critical) :
    (postImage lp images env db r).1 = .failedCritical key ∧
    key ∈ (postImage lp images env db r).2.used ∧
    key ∉ (postImage lp images env db r).2.unused ∧
    key ∉ (postImage lp images env db r).2.random_deck ∧
    (db.unused ≠ [] →
      (postImage lp images env db r).2.unused = db.unused.erase key ∧
      (postImage lp images env db r).2.used = db.used ++ [key] ∧
      (postImage lp images env db r).2.random_deck = db.random_deck) ∧
    (db.unused = [] →
      (postImage lp images env db r).2.random_deck = db1.random_deck.erase key ∧
      (postImage lp images env db r).2.used = db.used ∧
      (postImage lp images env db r).2.unused = [] ∧
      key ∈ db.used) :=
  critical_eviction_spec lp images env db db1 r key img hInv hsel hli hgi

/-- Witness for C5: a concrete local image with a missing sandbox root is
evicted from `unused` into `used`. -/
theorem c5_witness :
    (postImage none [("k", ⟨none, none, none, "file:a.png"⟩)] envOkAll
      ⟨[], ["k"], []⟩ 0).1 = .failedCritical "k" ∧
    "k" ∈ (postImage none [("k", ⟨none, none, none, "file:a.png"⟩)] envOkAll
      ⟨[], ["k"], []⟩ 0).2.used ∧
    "k" ∉ (postImage none [("k", ⟨none, none, none, "file:a.png"⟩)] envOkAll
      ⟨[], ["k"], []⟩ 0).2.unused := by
  have h := c5_critical_eviction none [("k", ⟨none, none, none, "file:a.png"⟩)]
    envOkAll ⟨[], ["k"], []⟩ ⟨[], ["k"], []⟩ 0 "k" ⟨none, none, none, "file:a.png"⟩
    (by decide) rfl rfl rfl
  exact ⟨h.1, h.2.1, h.2.2.1⟩

/-- A candidate returned from one day of the walk passed the
`date_time_now < post_date_time` test. -/
theorem tryDay_found_gt (env : TimeEnv) (day : Nat) (ts : List (Nat × Nat))
    (t : Int) (h : tryDay env day ts = some (.found t)) : env.now < t := by
  induction ts with
  | nil => simp [tryDay] at h
  | cons hm rest ih =>
    rcases hm with ⟨hh, mm⟩
    simp only [tryDay] at h
    split at h
    · split at h
      · rename_i hlt
        obtain rfl := NextTimeResult.found.inj (Option.some.inj h)
        exact hlt
      · exact ih h
    · split at h
      · exact ih h
      · exact absurd (Option.some.inj h) (by simp)

/-- Any fire time produced by the day walk is strictly later than `now`. -/
theorem nextTimeLoop_found_gt (env : TimeEnv) (ts : List (Nat × Nat))
    (fuel day : Nat) (t : Int)
    (h : nextTimeLoop env ts day fuel = .found t) : env.now < t := by
  induction fuel generalizing day with
  | zero => simp [nextTimeLoop] at h
  | succ n ih =>
    simp only [nextTimeLoop] at h
    split at h
    · rename_i res heq
      subst h
      exact tryDay_found_gt env day ts t heq
    · exact ih (day + 1) h

/-- C6 (amended): with a non-empty sorted daily-time list, every fire time
returned by `get_next_time` is strictly later than the live "now" consulted
during the walk; with an empty list it returns the reference timestamp plus
one day — a value that is not in general later than "now" (see the
counterexample). -/
theorem c6_next_fire_time (env : TimeEnv) (ts : List (Nat × Nat))
    (afterTs : Int) (fuel : Nat) :
    (ts = [] → getNextTime env ts afterTs fuel = .found (afterTs + oneDay)) ∧
    (ts ≠ [] → ∀ t, getNextTime env ts afterTs fuel = .found t →
      env.now < t) := by
  constructor
  · intro h
    simp [getNextTime, h]
  · intro hne t h
    rw [getNextTime, if_neg (by simp [hne])] at h
    exact nextTimeLoop_found_gt env ts fuel 0 t h

/-- C6 counterexample: with an empty daily-time list and a reference
timestamp ten days in the past, `get_next_time` returns reference + 1 day,
which is not strictly later than the current real time — refuting the
claim's universal "strictly later than now". -/
theorem c6_counterexample :
    getNextTime ⟨fun _ _ _ => some 0, 10 * 86400⟩ [] 0 5 = .found 86400 ∧
    ¬ ((10 * 86400 : Int) < 86400) :=
  ⟨by decide, by decide⟩

/-- The calendar oracle used by the C6 witness: day `d`, hour `h`, minute
`m` is the timestamp `86400*d + 3600*h + 60*m`; "now" is 01:00 of day 0. -/
def timeEnvW : TimeEnv := ⟨fun d h m => some (86400 * d + 3600 * h + 60 * m), 3600⟩

/-- Witness for the amended C6: a 01:00 daily time with "now" exactly 01:00
of day 0 skips the non-future candidate of day 0 and fires at day 1. -/
theorem c6_witness :
    getNextTime timeEnvW [(1, 0)] 0 5 = .found 90000 ∧ timeEnvW.now < 90000 :=
  ⟨by decide,
   (c6_next_fire_time timeEnvW [(1, 0)] 0 5).2 (by simp) 90000 (by decide)⟩

/-- C7: the post visibility and cursor behaviour of the publish step: the
cursor moves exactly when a rotation is configured and the publish
committed, the visibility field with a rotation configured is the rotation
entry at the cursor (through the `Default` ⇒ no-field rule of the api
layer), and with no rotation the single static visibility is used. -/
theorem c7_visibility_rotation (staticVis : StatusVisibility)
    (rotation : Option (List StatusVisibility)) (cursor : Nat)
    (committed : Bool) :
    ((publishVisibility staticVis rotation cursor committed).2 ≠ cursor ↔
      rotation ≠ none ∧ committed = true) ∧
    (∀ seq, rotation = some seq →
      (publishVisibility staticVis rotation cursor committed).1 =
        visibilityField (seq.getD (cursor % seq.length) .default)) ∧
    (rotation = none →
      (publishVisibility staticVis rotation cursor committed).1 =
        visibilityField staticVis) := by
  refine ⟨?_, ?_, ?_⟩
  · cases rotation with
    | none => simp [publishVisibility]
    | some seq =>
      cases committed with
      | false => simp [publishVisibility]
      | true => simp [publishVisibility]
  · intro seq hs
    subst hs
    rfl
  · intro hn
    subst hn
    rfl

/-- Witness for C7 at a concrete two-entry rotation and at a static
configuration. -/
theorem c7_witness :
    (publishVisibility .default (some [.public, .unlisted]) 3 true).1 =
      some "unlisted" ∧
    (publishVisibility .default (some [.public, .unlisted]) 3 true).2 = 4 ∧
    (publishVisibility .priv none 3 false).1 = some "private" ∧
    (publishVisibility .priv none 3 false).2 = 3 := by
  have h1 := (c7_visibility_rotation .default (some [.public, .unlisted]) 3
    true).2.1 [.public, .unlisted] rfl
  have h2 := (c7_visibility_rotation .priv none 3 false).2.2 rfl
  exact ⟨by rw [h1]; decide, by decide, by rw [h2]; decide, by decide⟩

/-- A string with a non-empty right part of an append is non-empty. -/
theorem string_append_ne_empty_right (a b : String) (hb : b ≠ "") :
    a ++ b ≠ "" := by
  intro h
  apply hb
  have hd := congrArg String.data h
  rw [String.data_append] at hd
  exact String.ext (List.append_eq_nil.mp hd).2

/-- C8 (amended): the status text is the image message followed by the
configured tag block whenever the tag block is non-empty — with a newline
separator inserted only when the message too is non-empty; the `status`
field is omitted exactly when both are empty.  An empty or absent image
message with non-empty tags still posts the tag block (alone, with no
newline).  The api.rs variant computes the same text as the main.rs one. -/
theorem c8_status_text (img : Image) (t m : String) :
    (img.msg = some m → m ≠ "" → t ≠ "" →
      statusField (some t) img = some (m ++ "\n" ++ t)) ∧
    ((img.msg = none ∨ img.msg = some "") → t ≠ "" →
      statusField (some t) img = some t) ∧
    (img.msg = some m → m ≠ "" →
      statusField none img = some m ∧ statusField (some "") img = some m) ∧
    ((img.msg = none ∨ img.msg = some "") →
      statusField none img = none ∧ statusField (some "") img = none) ∧
    statusMessageApi t img = statusMessage (some t) img := by
  refine ⟨?_, ?_, ?_, ?_, ?_⟩
  · intro hm hm' ht
    have hne : (m ++ "\n") ++ t ≠ "" := string_append_ne_empty_right _ _ ht
    simp [statusField, statusMessage, hm, hm', ht, hne]
  · intro hm ht
    have hmsg : img.msg.getD "" = "" := by
      rcases hm with hm | hm <;> simp [hm]
    simp [statusField, statusMessage, hmsg, ht]
  · intro hm hm'
    have hmsg : img.msg.getD "" = m := by simp [hm]
    constructor
    · simp [statusField, statusMessage, hmsg, hm']
    · simp [statusField, statusMessage, hmsg, hm']
  · intro hm
    have hmsg : img.msg.getD "" = "" := by
      rcases hm with hm | hm <;> simp [hm]
    constructor
    · simp [statusField, statusMessage, hmsg]
    · simp [statusField, statusMessage, hmsg]
  · by_cases ht : t = ""
    · subst ht
      simp [statusMessageApi, statusMessage]
    · by_cases hmsg : img.msg.getD "" = ""
      · simp [statusMessageApi, statusMessage, ht, hmsg]
      · simp [statusMessageApi, statusMessage, ht, hmsg]

/-- C8 counterexample: an image with no message and a configured non-empty
tag block still gets the tag block as the status text — refuting "for an
image whose message is empty or absent, the tag block is not part of the
status". -/
theorem c8_counterexample :
    (⟨none, none, none, "http://host/a"⟩ : Image).msg = none ∧
    statusField (some "#tag") ⟨none, none, none, "http://host/a"⟩ =
      some "#tag" ∧
    statusMessageApi "#tag" ⟨none, none, none, "http://host/a"⟩ = "#tag" :=
  ⟨rfl, by decide, by decide⟩

/-- Witness for the amended C8: both the non-empty-message and the
empty-message cases at concrete strings. -/
theorem c8_witness :
    statusField (some "#tag") ⟨some "msg", none, none, "x"⟩ =
      some ("msg" ++ "\n" ++ "#tag") ∧
    statusField (some "#tag") ⟨none, none, none, "x"⟩ = some "#tag" ∧
    statusField none ⟨none, none, none, "x"⟩ = none := by
  have h := c8_status_text ⟨some "msg", none, none, "x"⟩ "#tag" "msg"
  have h2 := c8_status_text ⟨none, none, none, "x"⟩ "#tag" "msg"
  exact ⟨h.1 rfl (by decide) (by decide),
    h2.2.1 (Or.inl rfl) (by decide),
    (h2.2.2.2.1 (Or.inl rfl)).1⟩

/-- C9 counterexample: selecting a `file:`-prefixed image with no
`local_path` configured does not terminate the process — `post_image`
returns the per-item `Err(())` after classifying the condition Critical and
evicting the key (here moved from `unused` to `used`), and the driver loop
carries on; the outcome is not the panic/termination the claim asserts. -/
theorem c9_counterexample :
    postImage none [("k", ⟨none, none, none, "file:a.png"⟩)] envOkAll
      ⟨[], ["k"], []⟩ 0 = (.failedCritical "k", ⟨["k"], [], []⟩) ∧
    (postImage none [("k", ⟨none, none, none, "file:a.png"⟩)] envOkAll
      ⟨[], ["k"], []⟩ 0).1 ≠ .panicked :=
  ⟨by decide, by decide⟩

/-- C9 (amended): a publish cycle that selects a `file:`-prefixed image
while no local sandbox root is configured is classified as a Critical
per-item failure: `get_image` reports Critical, `post_image` evicts the
selected key (registering it as used) and returns the failure to the loop;
the process is not terminated. -/
theorem c9_missing_root_per_item (images : List (String × Image)) (env : Env)
    (db db1 : ImageDB) (r : Nat) (key : String) (img : Image) (hInv : Inv db)
    (hsel : selectImage db r = (db1, some key))
    (hli : lookupImage images key = some img)
    (hfile : img.location.take 5 = "file:") :
    getImage env none img.location = .error .critical ∧
    (postImage none images env db r).1 = .failedCritical key ∧
    (postImage none images env db r).1 ≠ .panicked ∧
    key ∈ (postImage none images env db r).2.used := by
  have hgi : getImage env none img.location = .error .critical := by
    simp [getImage, hfile]
  have h := critical_eviction_spec none images env db db1 r key img hInv hsel hli hgi
  refine ⟨hgi, h.1, ?_, h.2.1⟩
  rw [h.1]
  simp

/-- Witness for the amended C9 at a concrete pool and catalog. -/
theorem c9_witness :
    getImage envOkAll none "file:b.png" = .error .critical ∧
    (postImage none [("j", ⟨none, none, none, "file:b.png"⟩)] envOkAll
      ⟨[], ["j"], []⟩ 1).1 = .failedCritical "j" := by
  have h := c9_missing_root_per_item
    [("j", ⟨none, none, none, "file:b.png"⟩)] envOkAll
    ⟨[], ["j"], []⟩ ⟨[], ["j"], []⟩ 1 "j" ⟨none, none, none, "file:b.png"⟩
    (by decide) rfl rfl (by decide)
  exact ⟨h.1, h.2.1⟩

/-- C10: with `unused`, `used` and `random_deck` all empty, `post_image`
panics in the selection step — `gen_range(0..random_deck.len())` is taken
over the empty range `0..0` after the no-op deck refill — for every
configuration, catalog, environment and rng draw, instead of returning an
error value; nothing guards the call with a pool-non-emptiness check. -/
theorem c10_empty_pool_panics (lp : Option String)
    (images : List (String × Image)) (env : Env) (r : Nat) :
    postImage lp images env ⟨[], [], []⟩ r = (.panicked, ⟨[], [], []⟩) := by
  have hsel : selectImage ⟨[], [], []⟩ r = (⟨[], [], []⟩, none) := by
    simp [selectImage]
  simp [postImage, hsel]

end VulpesPorto
